import Mathlib

/-!
Shallow embedding of the extraction/metrics core of `elecwarn.py`
(kuropen/elecwarn4, "Electricity Warning Crawler, Mastodon / Python Edition").

Pure functions of the source are translated into Lean functions; Python
exceptions become `Except PyError`; Python floats are modelled as exact
rationals `ℚ`; pandas-parsed numeric cells are `Option ℚ` (a blank/unparsable
cell is `none`, matching pandas NaN, which fails every `> 0` comparison).
-/

/-- The exceptions the modelled fragment of the source can raise.  In the
Python source these surface as `ValueError` (bad `int()`/`float()` argument),
`ZeroDivisionError` (float division by zero), and `IndexError`
(`list[i]` out of range or `.iloc[0]` on an empty frame).  `noValidReading`
is the `IndexError` raised by `.iloc[0]` when the `DEMAND > 0` (or
`SOLAR > 0`) query matched no row. -/
inductive PyError where
  | valueError : PyError
  | zeroDivision : PyError
  | indexError : PyError
  | noValidReading : PyError
  deriving Repr, DecidableEq

/-- Model of Python `str.split(sep)` for a one-character separator, as a
kernel-computable splitter over the character list.  `"".split(',')` gives
`['']`, so the result is never empty. -/
def pySplit (sep : Char) (s : String) : List String :=
  ((s.toList).splitOn sep).map (fun l => String.mk l)

/-- Numeric value of a string of decimal digits. -/
def digitsVal (ds : List Char) : ℕ :=
  ds.foldl (fun a c => a * 10 + (c.toNat - 48)) 0

/-- Decimal-digit run accepted by both Python `int()` and the integer part
of `float()`: at least one character, all digits. -/
def pyIntDigits (ds : List Char) : Option ℕ :=
  if ds.isEmpty ∨ ¬ ds.all Char.isDigit then none
  else some (digitsVal ds)

/-- Model of Python `int(s)` on a string `s`: optional sign followed by at
least one decimal digit.  A fractional literal such as `"45.5"` makes
`int()` raise `ValueError`, hence `none`. -/
def pyIntOfChars (l : List Char) : Option ℤ :=
  match l with
  | [] => none
  | c :: rest =>
    if c = '-' then
      match pyIntDigits rest with
      | some n => some (-(n : ℤ))
      | none => none
    else if c = '+' then
      match pyIntDigits rest with
      | some n => some ((n : ℤ))
      | none => none
    else
      match pyIntDigits (c :: rest) with
      | some n => some ((n : ℤ))
      | none => none

/-- `int(s)` on a Python string: `pyIntOfChars` over its characters. -/
def pyIntOfString (s : String) : Option ℤ :=
  pyIntOfChars s.toList

/-- Model of Python `int(x)` on a float `x`: truncation toward zero
(`int(4.7) = 4`, `int(-4.7) = -4`). -/
def truncTowardZero (q : ℚ) : ℤ :=
  if 0 ≤ q then ⌊q⌋ else ⌈q⌉

/-- Unsigned part of the Python `float()` grammar: digits with an optional
single decimal point, at least one digit overall (`"4."` and `".5"` are
accepted, `""` and `"."` are not). -/
def pyFloatCore (l : List Char) : Option ℚ :=
  match l.splitOn '.' with
  | [whole] =>
      match pyIntDigits whole with
      | some n => some ((n : ℚ))
      | none => none
  | [whole, frac] =>
      if (whole.isEmpty ∧ frac.isEmpty) ∨ ¬ whole.all Char.isDigit ∨ ¬ frac.all Char.isDigit
      then none
      else some ((digitsVal whole : ℚ) + (digitsVal frac : ℚ) / ((10 : ℚ) ^ frac.length))
  | _ => none

/-- Model of Python `float(s)`: optional sign, then `pyFloatCore`.
(Exponents and `inf`/`nan` spellings never occur in the feeds and are left
out.) -/
def pyFloatOfChars (l : List Char) : Option ℚ :=
  match l with
  | [] => none
  | c :: rest =>
    if c = '-' then (pyFloatCore rest).map (fun q => -q)
    else if c = '+' then pyFloatCore rest
    else pyFloatCore (c :: rest)

/-- `float(s)` on a Python string: `pyFloatOfChars` over its characters. -/
def pyFloatOfString (s : String) : Option ℚ :=
  pyFloatOfChars s.toList

/-- One row of the five-minute tabular region after `pd.read_csv` typed it:
`DATE`, `TIME` stay text; `DEMAND`, `SOLAR`, `WIND` are numeric cells where a
blank/missing cell is `none` (pandas NaN). -/
structure FiveMinRow where
  date : String
  time : String
  demand : Option ℚ
  solar : Option ℚ
  wind : Option ℚ
  deriving Repr, DecidableEq

/-- One row of the hourly tabular region after `pd.read_csv` typed it. -/
structure HourRow where
  date : String
  time : String
  demand : Option ℚ
  expected : Option ℚ
  percentage : Option ℚ
  reservePct : Option ℚ
  supply : Option ℚ
  deriving Repr, DecidableEq

/-- The `DEMAND > 0` validity predicate of the pandas `query`: a cell
passes iff it parsed as a number strictly greater than zero (NaN fails). -/
def demandPos (c : Option ℚ) : Bool :=
  match c with
  | some q => decide (0 < q)
  | none => false

/-- Model of `df.query(pred).iloc[::-1].iloc[0]`: keep the rows passing the
predicate, reverse, take the first — i.e. the last matching row; `none` is
the `IndexError` of `.iloc[0]` on an empty frame. -/
def selectLatest {α : Type} (valid : α → Bool) (rows : List α) : Option α :=
  ((rows.filter valid).reverse).head?

/-- The structure `DemandData` of the source: date, time and demand are kept
as they sit in the selected row (demand here is the typed pandas cell). -/
structure DemandData where
  date : String
  time : String
  demand : Option ℚ
  deriving Repr, DecidableEq

/-- `CsvData.get_last_five_min_demand`: select the last row of the region
with `DEMAND > 0` and wrap it as `DemandData`; the empty-selection
`IndexError` is the spec's `NoValidReading`. -/
def get_last_five_min_demand (rows : List FiveMinRow) : Except PyError DemandData :=
  match selectLatest (fun r => demandPos r.demand) rows with
  | some r => .ok ⟨r.date, r.time, r.demand⟩
  | none => .error .noValidReading

/-- `CsvData.get_last_hour_demand`: the hourly twin of
`get_last_five_min_demand`. -/
def get_last_hour_demand (rows : List HourRow) : Except PyError DemandData :=
  match selectLatest (fun r => demandPos r.demand) rows with
  | some r => .ok ⟨r.date, r.time, r.demand⟩
  | none => .error .noValidReading

lemma selectLatest_eq_getLast? {α : Type} (valid : α → Bool) (rows : List α) :
    selectLatest valid rows = (rows.filter valid).getLast? := by
  simp [selectLatest, List.head?_reverse]

/-- If `i` is the largest index whose row passes `valid`, then
`selectLatest` returns exactly that row. -/
lemma selectLatest_last_valid {α : Type} (valid : α → Bool) :
    ∀ (rows : List α) (i : ℕ) (hi : i < rows.length),
      valid (rows.get ⟨i, hi⟩) = true →
      (∀ j (hj : j < rows.length), i < j → valid (rows.get ⟨j, hj⟩) = false) →
      selectLatest valid rows = some (rows.get ⟨i, hi⟩) := by
  intro rows
  induction rows using List.reverseRecOn with
  | nil => intro i hi _ _; simp at hi
  | append_singleton l a ih =>
    intro i hi hv hlast
    rw [selectLatest_eq_getLast?]
    by_cases ha : valid a = true
    · -- the appended row is valid, so it must be the selected one: i = l.length
      have hil : i = l.length := by
        by_contra hne
        have hi' : i < l.length := by
          have := hi; simp [List.length_append] at this
          omega
        have := hlast l.length (by simp) (by omega)
        rw [List.get_eq_getElem] at this
        simp only [List.getElem_concat_length] at this
        rw [ha] at this; exact absurd this (by simp)
      subst hil
      have hrow : (l ++ [a]).get ⟨l.length, hi⟩ = a := by
        rw [List.get_eq_getElem]; exact List.getElem_concat_length l a _ rfl _
      rw [hrow, List.filter_append, List.filter_singleton, ha, cond_true]
      simp
    · -- the appended row is invalid: recurse on l
      have hi' : i < l.length := by
        rcases Nat.lt_or_ge i l.length with h | h
        · exact h
        · exfalso
          have : i = l.length := by
            have := hi; simp [List.length_append] at this; omega
          subst this
          have hrow : (l ++ [a]).get ⟨l.length, hi⟩ = a := by
            rw [List.get_eq_getElem]; exact List.getElem_concat_length l a _ rfl _
          rw [hrow] at hv; exact ha hv
      have hrow : (l ++ [a]).get ⟨i, hi⟩ = l.get ⟨i, hi'⟩ := by
        rw [List.get_eq_getElem, List.get_eq_getElem]
        exact List.getElem_append_left hi'
      have hlast' : ∀ j (hj : j < l.length), i < j → valid (l.get ⟨j, hj⟩) = false := by
        intro j hj hij
        have hj2 : j < (l ++ [a]).length := by simp; omega
        have := hlast j hj2 hij
        rw [List.get_eq_getElem, List.getElem_append_left hj] at this
        rw [List.get_eq_getElem]; exact this
      have := ih i hi' (by rw [← hrow]; exact hv) hlast'
      rw [selectLatest_eq_getLast?] at this
      rw [Bool.not_eq_true] at ha
      rw [List.filter_append, List.filter_singleton, ha, cond_false, List.append_nil, this, hrow]

/-- **C1.** For every tabular region that contains at least one valid row (a
row whose `DEMAND` field parses as a number strictly greater than zero),
the latest-reading selection (`get_last_five_min_demand` /
`get_last_hour_demand`) returns the row with the largest row index among the
valid rows — never an earlier valid row when a later one exists — for both
the five-minute and the hourly region. -/
theorem C1_selectLatest_largest_index :
    (∀ (rows : List FiveMinRow) (i : ℕ) (hi : i < rows.length),
        demandPos (rows.get ⟨i, hi⟩).demand = true →
        (∀ j (hj : j < rows.length), i < j → demandPos (rows.get ⟨j, hj⟩).demand = false) →
        get_last_five_min_demand rows =
          .ok ⟨(rows.get ⟨i, hi⟩).date, (rows.get ⟨i, hi⟩).time, (rows.get ⟨i, hi⟩).demand⟩) ∧
    (∀ (rows : List HourRow) (i : ℕ) (hi : i < rows.length),
        demandPos (rows.get ⟨i, hi⟩).demand = true →
        (∀ j (hj : j < rows.length), i < j → demandPos (rows.get ⟨j, hj⟩).demand = false) →
        get_last_hour_demand rows =
          .ok ⟨(rows.get ⟨i, hi⟩).date, (rows.get ⟨i, hi⟩).time, (rows.get ⟨i, hi⟩).demand⟩) := by
  constructor
  · intro rows i hi hv hlast
    have := selectLatest_last_valid (fun r => demandPos r.demand) rows i hi hv hlast
    unfold get_last_five_min_demand
    rw [this]
  · intro rows i hi hv hlast
    have := selectLatest_last_valid (fun r => demandPos r.demand) rows i hi hv hlast
    unfold get_last_hour_demand
    rw [this]

/-- Witness for C1: in a three-row five-minute region whose valid rows sit at
indices 0 and 1 (index 2 is blank), the row at index 1 is returned; likewise
for a two-row hourly region. -/
theorem C1_selectLatest_largest_index_witness :
    get_last_five_min_demand
        [⟨"1/1", "10:00", some 5, none, none⟩,
         ⟨"1/1", "10:05", some 7, none, none⟩,
         ⟨"1/1", "10:10", none, none, none⟩] = .ok ⟨"1/1", "10:05", some 7⟩ ∧
    get_last_hour_demand
        [⟨"1/1", "10:00", some 11, none, none, none, none⟩,
         ⟨"1/1", "11:00", none, none, none, none, none⟩] = .ok ⟨"1/1", "10:00", some 11⟩ := by
  constructor
  · exact C1_selectLatest_largest_index.1
      [⟨"1/1", "10:00", some 5, none, none⟩,
       ⟨"1/1", "10:05", some 7, none, none⟩,
       ⟨"1/1", "10:10", none, none, none⟩] 1 (by decide) (by decide)
      (by
        intro j hj hij
        simp only [List.length_cons, List.length_nil] at hj
        interval_cases j
        rfl)
  · exact C1_selectLatest_largest_index.2
      [⟨"1/1", "10:00", some 11, none, none, none, none⟩,
       ⟨"1/1", "11:00", none, none, none, none, none⟩] 0 (by decide) (by decide)
      (by
        intro j hj hij
        simp only [List.length_cons, List.length_nil] at hj
        interval_cases j
        rfl)

/-- **C4.** For every region in which no row has a `DEMAND` field that is a
positive number (all demand fields zero, blank, or non-numeric), selecting
the latest reading fails with `NoValidReading` (in the source: the
`IndexError` of `.iloc[0]` on the empty filtered frame); it never returns a
default reading in that case. -/
theorem C4_all_invalid_fails (rows5 : List FiveMinRow) (rowsH : List HourRow)
    (h5 : ∀ r ∈ rows5, demandPos r.demand = false)
    (hH : ∀ r ∈ rowsH, demandPos r.demand = false) :
    get_last_five_min_demand rows5 = .error .noValidReading ∧
    get_last_hour_demand rowsH = .error .noValidReading := by
  have e5 : selectLatest (fun r => demandPos r.demand) rows5 = none := by
    rw [selectLatest_eq_getLast?]
    rw [List.filter_eq_nil_iff.mpr (by intro r hr; simpa using h5 r hr)]
    rfl
  have eH : selectLatest (fun r => demandPos r.demand) rowsH = none := by
    rw [selectLatest_eq_getLast?]
    rw [List.filter_eq_nil_iff.mpr (by intro r hr; simpa using hH r hr)]
    rfl
  constructor
  · unfold get_last_five_min_demand; rw [e5]
  · unfold get_last_hour_demand; rw [eH]

/-- Witness for C4: a five-minute region of one zero-demand and one blank
row, and an hourly region of one blank row, both fail. -/
theorem C4_all_invalid_fails_witness :
    get_last_five_min_demand
        [⟨"1/1", "0:00", some 0, none, none⟩,
         ⟨"1/1", "0:05", none, none, none⟩] = .error .noValidReading ∧
    get_last_hour_demand
        [⟨"1/1", "0:00", none, none, none, none, none⟩] = .error .noValidReading := by
  exact C4_all_invalid_fails
    [⟨"1/1", "0:00", some 0, none, none⟩, ⟨"1/1", "0:05", none, none, none⟩]
    [⟨"1/1", "0:00", none, none, none, none, none⟩]
    (by decide) (by decide)

/-- Python slice `lines[start : stop]`: drop `start`, then take `stop - start`
elements.  Like the Python operation it silently truncates when the list is
shorter than the requested span and never raises. -/
def pySlice (lines : List String) (start stop : ℕ) : List String :=
  (lines.drop start).take (stop - start)

/-- `CsvData.get_five_min_list`, line-slicing part:
`self.lines[self.five_min_start : self.five_min_start + 289]`. -/
def get_five_min_lines (lines : List String) (five_min_start : ℕ) : List String :=
  pySlice lines five_min_start (five_min_start + 289)

/-- `CsvData.get_hour_list`, line-slicing part:
`self.lines[self.hourly_start : self.hourly_start + 25]`. -/
def get_hour_lines (lines : List String) (hourly_start : ℕ) : List String :=
  pySlice lines hourly_start (hourly_start + 25)

/-- **C2 (counterexample).** The claim says a row span exceeding the decoded
line count fails with `LayoutOutOfRange` and is never silently truncated.
On a three-line input with `fiveMinRowStart = 0` the requested spans (289
and 25 rows) both exceed the line count, yet both extractions return the
three lines unchanged — silent truncation, no failure of any kind. -/
theorem C2_slice_truncates_counterexample :
    get_five_min_lines ["DATE,TIME,DEMAND,SOLAR", "1/1,0:00,100,0", "1/1,0:05,110,0"] 0 =
      ["DATE,TIME,DEMAND,SOLAR", "1/1,0:00,100,0", "1/1,0:05,110,0"] ∧
    get_hour_lines ["DATE,TIME,DEMAND,SOLAR", "1/1,0:00,100,0", "1/1,0:05,110,0"] 0 =
      ["DATE,TIME,DEMAND,SOLAR", "1/1,0:00,100,0", "1/1,0:05,110,0"] := by
  constructor <;> rfl

/-- **C2 (amended).** The five-minute extraction slices
`min 289 (lines.length - start)` consecutive lines starting at
`fiveMinRowStart` (the hourly extraction `min 25 (lines.length - start)`
starting at `hourlyRowStart`): exactly 289 (resp. 25) rows when enough lines
exist, and silently truncated — never an error — when the span exceeds the
decoded line count. -/
theorem C2_slice_bounds (lines : List String) (s : ℕ) :
    (get_five_min_lines lines s).length = min 289 (lines.length - s) ∧
    (∀ i, i < 289 → (get_five_min_lines lines s)[i]? = lines[s + i]?) ∧
    (get_hour_lines lines s).length = min 25 (lines.length - s) ∧
    (∀ i, i < 25 → (get_hour_lines lines s)[i]? = lines[s + i]?) := by
  refine ⟨?_, ?_, ?_, ?_⟩
  · simp [get_five_min_lines, pySlice]
  · intro i hi
    have h : i < s + 289 - s := by omega
    simp [get_five_min_lines, pySlice, List.getElem?_take, List.getElem?_drop, h]
    omega
  · simp [get_hour_lines, pySlice]
  · intro i hi
    have h : i < s + 25 - s := by omega
    simp [get_hour_lines, pySlice, List.getElem?_take, List.getElem?_drop, h]
    omega

/-- Witness for C2 (amended): on the three-line input with start 1 the
five-minute slice has `min 289 2 = 2` lines, its element 0 is the input's
element 1, and similarly for the hourly slice. -/
theorem C2_slice_bounds_witness :
    (get_five_min_lines ["a", "b", "c"] 1).length = min 289 (3 - 1) ∧
    (get_five_min_lines ["a", "b", "c"] 1)[0]? = ["a", "b", "c"][1 + 0]? ∧
    (get_hour_lines ["a", "b", "c"] 1).length = min 25 (3 - 1) ∧
    (get_hour_lines ["a", "b", "c"] 1)[0]? = ["a", "b", "c"][1 + 0]? := by
  refine ⟨(C2_slice_bounds ["a", "b", "c"] 1).1, ?_, ?_, ?_⟩
  · exact (C2_slice_bounds ["a", "b", "c"] 1).2.1 0 (by omega)
  · exact (C2_slice_bounds ["a", "b", "c"] 1).2.2.1
  · exact (C2_slice_bounds ["a", "b", "c"] 1).2.2.2 0 (by omega)

/-- Lift an optional value into `Except`, raising `e` on `none` (the way a
failing Python builtin raises). -/
def ofOption {α : Type} (o : Option α) (e : PyError) : Except PyError α :=
  match o with
  | some a => .ok a
  | none => .error e

/-- `CsvData.get_peak_supply`: `self.lines[2].split(',')[0]`.  `split(',')`
never yields an empty list, so the `[0]` access is modelled with `headD`;
the `lines[2]` access raises `IndexError` when absent. -/
def get_peak_supply (lines : List String) : Except PyError String :=
  match lines.get? 2 with
  | some l => .ok ((pySplit ',' l).headD "")
  | none => .error .indexError

/-- `CsvData.get_peak_supply_as_float`: `float(self.get_peak_supply())`. -/
def get_peak_supply_as_float (lines : List String) : Except PyError ℚ := do
  let s ← get_peak_supply lines
  ofOption (pyFloatOfString s) .valueError

/-- `DemandData.get_demand_as_float`: `float(self.demand)`.  The demand cell
is the typed pandas value carried in from the selected row; a cell with no
numeric value gives no float. -/
def DemandData.get_demand_as_float (d : DemandData) : Except PyError ℚ :=
  match d.demand with
  | some q => .ok q
  | none => .error .valueError

/-- The argument shape of `CsvData.percentage_as_float`: the source accepts
"both float and structure" and dispatches on the runtime class name
(`demand.__class__.__name__ == 'DemandData'`). -/
inductive PyValue where
  | demandData (d : DemandData)
  | num (q : ℚ)
  deriving Repr

/-- `CsvData.percentage_as_float`: compute the peak supply from line 2 of
the CSV, extract the demand number by class-name dispatch, and return
`dm / supply * 100`; dividing by a zero supply is Python's
`ZeroDivisionError`. -/
def percentage_as_float (lines : List String) (demand : PyValue) : Except PyError ℚ := do
  let supply ← get_peak_supply_as_float lines
  let dm ← match demand with
    | .demandData d => d.get_demand_as_float
    | .num q => pure q
  if supply = 0 then throw .zeroDivision
  else pure (dm / supply * 100)

/-- **C3 (counterexample).** The claim says the utilization computation
fails for every `peakSupply ≤ 0`, never returning a numeric result in those
cases.  With peak supply `-100` (line 2 of the CSV) and demand `50` the
source computes `50 / -100 * 100 = -50`: a numeric result on a negative
supply, with no error of any kind. -/
theorem C3_negative_supply_counterexample :
    percentage_as_float ["h", "h", "-100,x", "h"] (.num 50) = .ok (-50) := by
  have hs : get_peak_supply_as_float ["h", "h", "-100,x", "h"] = .ok (-100) := rfl
  simp only [percentage_as_float, hs, bind, Except.bind, pure, Except.pure]
  rw [if_neg (by norm_num)]
  have harith : (50 : ℚ) / -100 * 100 = -50 := by norm_num
  rw [harith]

/-- **C3 (amended).** Given that the peak supply parses to `s`, the
computation returns `100 * dm / s` for every nonzero supply — positive or
negative — and fails (Python `ZeroDivisionError`, the spec's
`DivisionUndefined`) exactly when `s = 0`. -/
theorem C3_utilization (lines : List String) (s dm : ℚ)
    (hsup : get_peak_supply_as_float lines = .ok s) :
    (0 < s → percentage_as_float lines (.num dm) = .ok (100 * dm / s)) ∧
    (s = 0 → percentage_as_float lines (.num dm) = .error .zeroDivision) ∧
    (s < 0 → percentage_as_float lines (.num dm) = .ok (100 * dm / s)) := by
  refine ⟨?_, ?_, ?_⟩
  · intro hpos
    simp only [percentage_as_float, hsup, bind, Except.bind, pure, Except.pure]
    rw [if_neg (by exact ne_of_gt hpos)]
    congr 1
    ring
  · intro hzero
    subst hzero
    simp only [percentage_as_float, hsup, bind, Except.bind, pure, Except.pure]
    rfl
  · intro hneg
    simp only [percentage_as_float, hsup, bind, Except.bind, pure, Except.pure]
    rw [if_neg (by exact ne_of_lt hneg)]
    congr 1
    ring

/-- Witness for C3 (amended): peak supply line `"5000,x"` parses to `5000`,
and a demand of `4500` gives `90`; supply line `"0"` gives the error. -/
theorem C3_utilization_witness :
    percentage_as_float ["h", "h", "5000,x", "h"] (.num 4500) = .ok (100 * 4500 / 5000) ∧
    percentage_as_float ["h", "h", "0", "h"] (.num 4500) = .error .zeroDivision := by
  constructor
  · exact (C3_utilization ["h", "h", "5000,x", "h"] 5000 4500 (by rfl)).1 (by norm_num)
  · exact (C3_utilization ["h", "h", "0", "h"] 0 4500 (by rfl)).2.1 rfl

/-- **C10.** The runtime class-name dispatch never changes the computed
percentage: for every `DemandData` value whose demand field carries the
number `q`, `percentage_as_float` on the structure agrees with
`percentage_as_float` on the raw number `q`, for every CSV and hence every
peak supply. -/
theorem C10_dispatch_agrees (lines : List String) (d : DemandData) (q : ℚ)
    (h : d.demand = some q) :
    percentage_as_float lines (.demandData d) = percentage_as_float lines (.num q) := by
  simp only [percentage_as_float, DemandData.get_demand_as_float, h]
  rfl

/-- Witness for C10: a concrete `DemandData` with demand `4500` agrees with
the raw number `4500` on a concrete CSV. -/
theorem C10_dispatch_agrees_witness :
    percentage_as_float ["h", "h", "5000,x", "h"]
        (.demandData ⟨"1/1", "12:00", some 4500⟩) =
      percentage_as_float ["h", "h", "5000,x", "h"] (.num 4500) := by
  exact C10_dispatch_agrees ["h", "h", "5000,x", "h"] ⟨"1/1", "12:00", some 4500⟩ 4500 rfl

/-- The four alert severities of the system. -/
inductive AlertLevel where
  | nothing : AlertLevel
  | watch : AlertLevel
  | warning : AlertLevel
  | critical : AlertLevel
  deriving Repr, DecidableEq

/-- Numeric rank of a severity, for stating monotonicity. -/
def AlertLevel.rank : AlertLevel → ℕ
  | .nothing => 0
  | .watch => 1
  | .warning => 2
  | .critical => 3

/-- Modelled from the spec: the severity classification is absent from the
source file of this edition (it lives outside `src/`); per the spec it maps
a utilization percentage through fixed strict thresholds, highest first:
`> 97` critical, `> 95` warning, `> 92` watch, otherwise none. -/
def classifySeverity (p : ℚ) : AlertLevel :=
  if p > 97 then .critical
  else if p > 95 then .warning
  else if p > 92 then .watch
  else .nothing

/-- **C8.** `classifySeverity` maps every percentage in `[0, ∞)` to exactly
one of the four levels with strict thresholds: the four bands partition
`[0, ∞)` with no gaps or overlaps, the classification is monotonic, and the
boundary values 92, 95 and 97 map to the lower band. -/
theorem C8_classifySeverity_bands :
    (∀ p : ℚ, 0 ≤ p → (classifySeverity p = .critical ↔ 97 < p)) ∧
    (∀ p : ℚ, 0 ≤ p → (classifySeverity p = .warning ↔ 95 < p ∧ p ≤ 97)) ∧
    (∀ p : ℚ, 0 ≤ p → (classifySeverity p = .watch ↔ 92 < p ∧ p ≤ 95)) ∧
    (∀ p : ℚ, 0 ≤ p → (classifySeverity p = .nothing ↔ p ≤ 92)) ∧
    (∀ p q : ℚ, p ≤ q → (classifySeverity p).rank ≤ (classifySeverity q).rank) ∧
    classifySeverity 92 = .nothing ∧ classifySeverity 95 = .watch ∧
    classifySeverity 97 = .warning := by
  have bands : ∀ band : AlertLevel, ∀ p : ℚ,
      (classifySeverity p = band ↔
        (band = .critical ∧ 97 < p) ∨ (band = .warning ∧ 95 < p ∧ p ≤ 97) ∨
        (band = .watch ∧ 92 < p ∧ p ≤ 95) ∨ (band = .nothing ∧ p ≤ 92)) := by
    intro band p
    unfold classifySeverity
    split_ifs with h1 h2 h3 <;> constructor <;> intro hc
    · exact Or.inl ⟨hc.symm, h1⟩
    · rcases hc with ⟨hb, _⟩ | ⟨hb, _, hb2⟩ | ⟨hb, _, hb2⟩ | ⟨hb, hb2⟩ <;>
        first | exact hb.symm | (exfalso; linarith)
    · exact Or.inr (Or.inl ⟨hc.symm, h2, by linarith⟩)
    · rcases hc with ⟨hb, hb2⟩ | ⟨hb, _, _⟩ | ⟨hb, _, hb2⟩ | ⟨hb, hb2⟩ <;>
        first | exact hb.symm | (exfalso; linarith)
    · exact Or.inr (Or.inr (Or.inl ⟨hc.symm, h3, by linarith⟩))
    · rcases hc with ⟨hb, hb2⟩ | ⟨hb, hb2, _⟩ | ⟨hb, _, _⟩ | ⟨hb, hb2⟩ <;>
        first | exact hb.symm | (exfalso; linarith)
    · exact Or.inr (Or.inr (Or.inr ⟨hc.symm, by linarith⟩))
    · rcases hc with ⟨hb, hb2⟩ | ⟨hb, hb2, _⟩ | ⟨hb, hb2, _⟩ | ⟨hb, _⟩ <;>
        first | exact hb.symm | (exfalso; linarith)
  refine ⟨?_, ?_, ?_, ?_, ?_, ?_, ?_, ?_⟩
  · intro p _
    rw [bands .critical p]
    simp
  · intro p _
    rw [bands .warning p]
    simp
  · intro p _
    rw [bands .watch p]
    simp
  · intro p _
    rw [bands .nothing p]
    simp
  · intro p q hpq
    unfold classifySeverity
    split_ifs with h1 h2 h3 h4 h5 h6 <;> simp [AlertLevel.rank] <;> linarith
  · rw [bands .nothing 92]; norm_num
  · rw [bands .watch 95]; norm_num
  · rw [bands .warning 97]; norm_num

/-- Witness for C8: 98 is critical, 96 warning, 93 watch, 90 none, and the
rank is monotone across 90 ≤ 98. -/
theorem C8_classifySeverity_bands_witness :
    (classifySeverity 98 = .critical ↔ (97 : ℚ) < 98) ∧
    (classifySeverity 96 = .warning ↔ (95 : ℚ) < 96 ∧ (96 : ℚ) ≤ 97) ∧
    (classifySeverity 93 = .watch ↔ (92 : ℚ) < 93 ∧ (93 : ℚ) ≤ 95) ∧
    (classifySeverity 90 = .nothing ↔ (90 : ℚ) ≤ 92) ∧
    (classifySeverity 90).rank ≤ (classifySeverity 98).rank := by
  refine ⟨?_, ?_, ?_, ?_, ?_⟩
  · exact C8_classifySeverity_bands.1 98 (by norm_num)
  · exact C8_classifySeverity_bands.2.1 96 (by norm_num)
  · exact C8_classifySeverity_bands.2.2.1 93 (by norm_num)
  · exact C8_classifySeverity_bands.2.2.2.1 90 (by norm_num)
  · exact C8_classifySeverity_bands.2.2.2.2.1 90 98 (by norm_num)

/-- The `PeakType` enum of the source. -/
inductive PeakType where
  | AMOUNT : PeakType
  | PERCENTAGE : PeakType
  deriving Repr, DecidableEq

/-- `PeakType.value`: the enum's string payload. -/
def PeakType.value : PeakType → String
  | .AMOUNT => "AMOUNT"
  | .PERCENTAGE => "PERCENTAGE"

/-- The item `CsvData.get_peak_demand_gql` assembles (the `createdAt`-free
fields it writes; the DynamoDB handle is outside the core). -/
structure PeakItem where
  area : String
  date_type : String
  date : String
  expectedHour : String
  type : String
  percentage : ℤ
  reservePct : ℤ
  isTomorrow : Bool
  amount : ℤ
  supply : ℤ
  deriving Repr, DecidableEq

/-- `CsvData.get_peak_demand_gql`: read the peak supply row (line 2 for the
amount block, line 8 for the percentage block) and the peak demand row
(line 5 resp. 11), split each on commas, and assemble the item;
`include_reserve_pct` decides whether the percentage sits at field 5 with
the reserve at field 4, or at field 4 with the reserve fixed to 0.  Each
`int()` on a field models Python `int` over the raw string. -/
def get_peak_demand_gql (area_id today : String) (include_reserve_pct : Bool)
    (lines : List String) (peak_type : PeakType) : Except PyError PeakItem := do
  let supply_line : ℕ := match peak_type with | .AMOUNT => 2 | .PERCENTAGE => 8
  let demand_line : ℕ := match peak_type with | .AMOUNT => 5 | .PERCENTAGE => 11
  let psl ← match lines.get? supply_line with
    | some l => pure (pySplit ',' l)
    | none => throw .indexError
  let peak_supply := psl.headD ""
  let pdl ← match lines.get? demand_line with
    | some l => pure (pySplit ',' l)
    | none => throw .indexError
  let peak_demand := pdl.headD ""
  let expected_hour ← match pdl.get? 1 with
    | some s => pure s
    | none => throw .indexError
  let pr ← if include_reserve_pct then
      match psl.get? 5, psl.get? 4 with
      | some pct, some rsv => pure (pct, some rsv)
      | _, _ => throw (.indexError : PyError)
    else
      match psl.get? 4 with
      | some pct => pure (pct, none)
      | none => throw (.indexError : PyError)
  let percentage ← ofOption (pyIntOfString pr.1) .valueError
  let reserve_pct ← match pr.2 with
    | some rs => ofOption (pyIntOfString rs) .valueError
    | none => pure 0
  let amount ← ofOption (pyIntOfString peak_demand) .valueError
  let supply ← ofOption (pyIntOfString peak_supply) .valueError
  pure {
    area := area_id
    date_type := today ++ "_" ++ peak_type.value
    date := today
    expectedHour := expected_hour
    type := peak_type.value
    percentage := percentage
    reservePct := reserve_pct
    isTomorrow := false
    amount := amount
    supply := supply }

/-- **C6.** `get_peak_demand_gql` reads the amount-type peak block from rows
2 (supply) and 5 (demand) and the percentage-type block from rows 8 and 11;
with `include_reserve_pct` set the reserve percentage comes from field 4 and
the percentage from field 5 of the supply row, otherwise the percentage
comes from field 4 and the reserve is fixed at 0.  The demand amount and
the expected hour come from fields 0 and 1 of the demand row, the supply
from field 0 of the supply row. -/
theorem C6_peak_block_layout (a t : String) (flag : Bool) (lines : List String)
    (pt : PeakType) (sl dl : String)
    (hs : lines.get? (match pt with | .AMOUNT => 2 | .PERCENTAGE => 8) = some sl)
    (hd : lines.get? (match pt with | .AMOUNT => 5 | .PERCENTAGE => 11) = some dl)
    (eH : String) (he : (pySplit ',' dl).get? 1 = some eH)
    (pctS : String) (hp : (pySplit ',' sl).get? (if flag then 5 else 4) = some pctS)
    (pct : ℤ) (hpi : pyIntOfString pctS = some pct)
    (rsv : ℤ)
    (hr : (if flag then ((pySplit ',' sl).get? 4).bind pyIntOfString else some 0) = some rsv)
    (amt : ℤ) (hai : pyIntOfString ((pySplit ',' dl).headD "") = some amt)
    (sup : ℤ) (hsi : pyIntOfString ((pySplit ',' sl).headD "") = some sup) :
    get_peak_demand_gql a t flag lines pt =
      .ok ⟨a, t ++ "_" ++ pt.value, t, eH, pt.value, pct, rsv, false, amt, sup⟩ := by
  cases pt <;> cases flag <;>
    simp only [if_true, if_false, Bool.false_eq_true] at hp hr
  case AMOUNT.false =>
    cases hr
    simp only [get_peak_demand_gql, hs, hd, he, hp, hpi, hai, hsi, ofOption,
      bind, Except.bind, pure, Except.pure]
    rfl
  case AMOUNT.true =>
    obtain ⟨rsvS, hr4, hri⟩ := Option.bind_eq_some.mp hr
    simp only [get_peak_demand_gql, hs, hd, he, hp, hr4, hpi, hri, hai, hsi, ofOption,
      bind, Except.bind, pure, Except.pure]
    rfl
  case PERCENTAGE.false =>
    cases hr
    simp only [get_peak_demand_gql, hs, hd, he, hp, hpi, hai, hsi, ofOption,
      bind, Except.bind, pure, Except.pure]
    rfl
  case PERCENTAGE.true =>
    obtain ⟨rsvS, hr4, hri⟩ := Option.bind_eq_some.mp hr
    simp only [get_peak_demand_gql, hs, hd, he, hp, hr4, hpi, hri, hai, hsi, ofOption,
      bind, Except.bind, pure, Except.pure]
    rfl

lemma pyIntDigits_dot_none {ds : List Char} (h : '.' ∈ ds) : pyIntDigits ds = none := by
  have hall : ¬ (ds.all Char.isDigit = true) := by
    intro hall
    have := List.all_eq_true.mp hall '.' h
    simp [Char.isDigit] at this
  rw [pyIntDigits, if_pos (Or.inr hall)]

lemma dot_mem_of_splitOn_pair {l w f : List Char} (h : l.splitOn '.' = [w, f]) :
    '.' ∈ l := by
  by_contra hn
  have h1 : l.splitOn '.' = [l] := by
    unfold List.splitOn
    refine List.splitOnP_eq_single _ _ ?_
    intro x hx hbeq
    exact hn ((beq_iff_eq.mp hbeq) ▸ hx)
  rw [h1] at h
  simp at h

lemma pyFloatCore_dot {l : List Char} {q : ℚ} (h : pyFloatCore l = some q)
    (hden : q.den ≠ 1) : '.' ∈ l := by
  unfold pyFloatCore at h
  rcases hsp : l.splitOn '.' with _ | ⟨w, _ | ⟨f, _ | ⟨g, rest3⟩⟩⟩ <;> rw [hsp] at h
  · simp at h
  · have h2 : (match pyIntDigits w with
        | some n => some ((n : ℚ))
        | none => none) = some q := h
    rcases hpd : pyIntDigits w with _ | n <;> rw [hpd] at h2
    · exact absurd (show (none : Option ℚ) = some q from h2) (by simp)
    · have hq : ((n : ℚ)) = q := by
        injection (show some ((n : ℚ)) = some q from h2)
      have hd1 : q.den = 1 := by
        rw [← hq]
        exact Rat.den_natCast n
      exact absurd hd1 hden
  · exact dot_mem_of_splitOn_pair hsp
  · simp at h

lemma pyFloatChars_fractional_pyIntChars_none (l : List Char) (q : ℚ)
    (hf : pyFloatOfChars l = some q) (hden : q.den ≠ 1) :
    pyIntOfChars l = none := by
  cases l with
  | nil => simp [pyFloatOfChars] at hf
  | cons c rest =>
    rw [pyFloatOfChars] at hf
    rw [pyIntOfChars]
    by_cases hc : c = '-'
    · rw [if_pos hc] at hf ⊢
      obtain ⟨q', hq', hneg⟩ := Option.map_eq_some'.mp hf
      have hd' : q'.den ≠ 1 := by
        rw [← hneg] at hden
        rwa [Rat.den_neg_eq_den] at hden
      rw [pyIntDigits_dot_none (pyFloatCore_dot hq' hd')]
    · rw [if_neg hc] at hf ⊢
      by_cases hc2 : c = '+'
      · rw [if_pos hc2] at hf ⊢
        rw [pyIntDigits_dot_none (pyFloatCore_dot hf hden)]
      · rw [if_neg hc2] at hf ⊢
        rw [pyIntDigits_dot_none (pyFloatCore_dot hf hden)]

lemma pyFloat_fractional_pyInt_none (s : String) (q : ℚ)
    (hf : pyFloatOfString s = some q) (hden : q.den ≠ 1) :
    pyIntOfString s = none :=
  pyFloatChars_fractional_pyIntChars_none s.toList q hf hden

/-- **C9 (counterexample).** The claim says integer coercion truncates and
"succeeds for every fractional numeric value ever present in those fields".
In the peak builder the fields are raw comma-split strings: with a
fractional peak supply field `"4500.5"` (a value `float()` accepts, so it is
a numeric value) the builder raises `ValueError` from `int("4500.5")`
instead of truncating. -/
theorem C9_fractional_peak_field_counterexample :
    get_peak_demand_gql "a" "d" false
        ["L0", "L1", "4500.5,a,b,c,90", "L3", "L4", "4000,13"] .AMOUNT =
      .error .valueError ∧
    pyFloatOfString "4500.5" =
      some ((4500 : ℚ) + (5 : ℚ) / ((10 : ℚ) ^ 1)) := by
  exact ⟨rfl, rfl⟩

/-- **C9 (amended).** In the five-minute and hourly record builders the
numeric cells are pandas floats and `int()` (`truncTowardZero`) truncates
toward zero — magnitude rounded down, never up, sign kept; in the peak
builder the fields are raw strings, and `int()` on a string that `float()`
accepts with a non-integral value fails (`ValueError`) rather than
truncating. -/
theorem C9_int_coercion_truncates :
    (∀ q : ℚ, 0 ≤ q →
      ((truncTowardZero q : ℚ) ≤ q ∧ q < (truncTowardZero q : ℚ) + 1 ∧
        0 ≤ truncTowardZero q)) ∧
    (∀ q : ℚ, q < 0 →
      (q ≤ (truncTowardZero q : ℚ) ∧ (truncTowardZero q : ℚ) - 1 < q ∧
        truncTowardZero q ≤ 0)) ∧
    (∀ (s : String) (q : ℚ), pyFloatOfString s = some q → q.den ≠ 1 →
      pyIntOfString s = none) := by
  refine ⟨?_, ?_, pyFloat_fractional_pyInt_none⟩
  · intro q hq
    rw [truncTowardZero, if_pos hq]
    refine ⟨Int.floor_le q, Int.lt_floor_add_one q, ?_⟩
    exact Int.floor_nonneg.mpr hq
  · intro q hq
    rw [truncTowardZero, if_neg (by linarith)]
    refine ⟨Int.le_ceil q, by linarith [Int.ceil_lt_add_one q], ?_⟩
    exact Int.ceil_le.mpr (by exact_mod_cast hq.le)

/-- Witness for C9 (amended): truncation bounds at `4.7` and `-4.7`, and
`int()` failing on the fractional string `"4.5"` whose `float()` value has
denominator 2. -/
theorem C9_int_coercion_truncates_witness :
    ((truncTowardZero (47 / 10) : ℚ) ≤ 47 / 10 ∧
      (47 / 10 : ℚ) < (truncTowardZero (47 / 10) : ℚ) + 1 ∧
      0 ≤ truncTowardZero (47 / 10)) ∧
    ((-47 / 10 : ℚ) ≤ (truncTowardZero (-47 / 10) : ℚ) ∧
      (truncTowardZero (-47 / 10) : ℚ) - 1 < -47 / 10 ∧
      truncTowardZero (-47 / 10) ≤ 0) ∧
    pyIntOfString "4.5" = none := by
  have hval : pyFloatOfString "4.5" = some ((4 : ℚ) + (5 : ℚ) / ((10 : ℚ) ^ 1)) := rfl
  have hden : ((4 : ℚ) + (5 : ℚ) / ((10 : ℚ) ^ 1)).den ≠ 1 := by
    intro h1
    have h2 : ((4 : ℚ) + (5 : ℚ) / ((10 : ℚ) ^ 1)) =
        (((4 : ℚ) + (5 : ℚ) / ((10 : ℚ) ^ 1)).num : ℚ) :=
      ((Rat.den_eq_one_iff _).mp h1).symm
    set z := ((4 : ℚ) + (5 : ℚ) / ((10 : ℚ) ^ 1)).num with hz
    have h3 : (9 : ℚ) = 2 * (z : ℚ) := by
      rw [← h2]
      norm_num
    have h4 : (9 : ℤ) = 2 * z := by exact_mod_cast h3
    omega
  refine ⟨?_, ?_, ?_⟩
  · exact C9_int_coercion_truncates.1 (47 / 10) (by norm_num)
  · exact C9_int_coercion_truncates.2.1 (-47 / 10) (by norm_num)
  · exact C9_int_coercion_truncates.2.2 "4.5" _ hval hden

/-- Witness for C6: a twelve-line CSV with the reserve flag set and the
percentage-type block; the supply row at line 8 carries reserve 3 at field 4
and percentage 96 at field 5, the demand row at line 11 carries amount 4600
and expected hour "17". -/
theorem C6_peak_block_layout_witness :
    get_peak_demand_gql "area1" "2024-01-01" true
        ["L0", "L1", "L2", "L3", "L4", "L5", "L6", "L7",
         "4800,18:00,x,y,3,96", "L9", "L10", "4600,17"] .PERCENTAGE =
      .ok ⟨"area1", "2024-01-01_PERCENTAGE", "2024-01-01", "17", "PERCENTAGE",
        96, 3, false, 4600, 4800⟩ := by
  exact C6_peak_block_layout "area1" "2024-01-01" true
    ["L0", "L1", "L2", "L3", "L4", "L5", "L6", "L7",
     "4800,18:00,x,y,3,96", "L9", "L10", "4600,17"] .PERCENTAGE
    "4800,18:00,x,y,3,96" "4600,17" rfl rfl "17" rfl "96" rfl 96 rfl 3 rfl
    4600 rfl 4800 rfl

/-- `[hour, minute] = time.split(':')` followed by `int()` on both parts:
fails (ValueError) when the split does not give exactly two parts or a part
is not an integer literal. -/
def parseTimeHM (s : String) : Except PyError (ℤ × ℤ) :=
  match pySplit ':' s with
  | [hs, ms] =>
      match pyIntOfString hs, pyIntOfString ms with
      | some h, some m => .ok (h, m)
      | _, _ => .error .valueError
  | _ => .error .valueError

/-- `datetime.datetime(now.year, now.month, now.day, h, m, 0, tz)`: the
synthesized absolute timestamp, modelled by its only varying parts — the
hour and minute taken from the row's `TIME` — with the constructor's range
check (`ValueError` outside 0–23 / 0–59). -/
def mkAbsDate (h m : ℤ) : Except PyError (ℤ × ℤ) :=
  if 0 ≤ h ∧ h < 24 ∧ 0 ≤ m ∧ m < 60 then .ok (h, m) else .error .valueError

/-- The item `CsvData.get_last_five_min_demand_gql` assembles (`createdAt`
is ambient wall-clock time and carries no CSV information; it is omitted). -/
structure FiveMinItem where
  area : String
  absDate : ℤ × ℤ
  date : String
  time : String
  amount : ℤ
  solar : ℤ
  wind : ℤ
  deriving Repr, DecidableEq

/-- `CsvData.get_last_five_min_demand_gql`: select the demand-latest row,
build its item; when that row's solar value truncates to zero, re-scan for
the solar-latest row (`SOLAR > 0`), and if its `TIME` differs, persist and
return the solar item instead.  The result pairs the returned item with the
list of items written through `table.put_item` (only the solar item ever
is; the `put_item` for the demand item is commented out in the source). -/
def get_last_five_min_demand_gql (area_id today : String) (include_wind : Bool)
    (rows : List FiveMinRow) : Except PyError (FiveMinItem × List FiveMinItem) := do
  let latest ← match selectLatest (fun r => demandPos r.demand) rows with
    | some r => pure r
    | none => throw (.noValidReading : PyError)
  -- `.fillna(0)`: blank cells of the selected row read as 0
  let wind : ℤ := if include_wind then truncTowardZero (latest.wind.getD 0) else 0
  let latest_time := latest.time
  let hm ← parseTimeHM latest_time
  let abs_date ← mkAbsDate hm.1 hm.2
  let solar : ℤ := truncTowardZero (latest.solar.getD 0)
  let item : FiveMinItem :=
    ⟨area_id, abs_date, today, latest_time,
      truncTowardZero (latest.demand.getD 0), solar, wind⟩
  if solar = 0 then
    let sLatest ← match selectLatest (fun r => demandPos r.solar) rows with
      | some r => pure r
      | none => throw (.noValidReading : PyError)
    if latest_time = sLatest.time then
      return (item, [])
    else
      let solar_wind : ℤ :=
        if include_wind then truncTowardZero (sLatest.wind.getD 0) else 0
      let shm ← parseTimeHM sLatest.time
      let s_abs ← mkAbsDate shm.1 shm.2
      let solar_item : FiveMinItem :=
        ⟨area_id, s_abs, today, sLatest.time,
          truncTowardZero (sLatest.demand.getD 0),
          truncTowardZero (sLatest.solar.getD 0), solar_wind⟩
      return (solar_item, [solar_item])
  else
    return (item, [])

/-- **C7 (counterexample).** The claim says that when the solar-latest
`TIME` differs from the demand-latest `TIME`, two distinct records are
emitted, one for each reading.  On a region where the demand-latest row
(`TIME = "12:05"`, demand 400, solar 0) differs from the solar-latest row
(`TIME = "12:00"`, demand 300, solar 50), the source emits exactly one
record — the solar one, both returned and persisted; no record with the
demand-latest reading (time `"12:05"`, amount 400) exists in the output. -/
theorem C7_single_record_counterexample :
    get_last_five_min_demand_gql "tokyo" "2024-06-01" false
        [⟨"1/1", "12:00", some 300, some 50, none⟩,
         ⟨"1/1", "12:05", some 400, some 0, none⟩] =
      .ok (⟨"tokyo", (12, 0), "2024-06-01", "12:00", 300, 50, 0⟩,
        [⟨"tokyo", (12, 0), "2024-06-01", "12:00", 300, 50, 0⟩]) := by
  rfl

/-- **C7 (amended).** When the solar-latest `TIME` differs from the
demand-latest `TIME`, a single five-minute record is emitted, not two: if
the demand-latest row's solar value truncates to zero, the emitted record is
the solar-latest one (returned and persisted), carrying its own `TIME` and
an absolute timestamp derived from that `TIME`, while the demand-latest
record is discarded; if the demand-latest row's solar is nonzero, only the
demand-latest record is returned, even though a later solar-positive row
exists. -/
theorem C7_skew_single_record :
    (∀ (a t : String) (w : Bool) (rows : List FiveMinRow) (rd rs : FiveMinRow)
        (dh dm sh sm : ℤ),
      selectLatest (fun r => demandPos r.demand) rows = some rd →
      truncTowardZero (rd.solar.getD 0) = 0 →
      selectLatest (fun r => demandPos r.solar) rows = some rs →
      rd.time ≠ rs.time →
      parseTimeHM rd.time = .ok (dh, dm) →
      0 ≤ dh → dh < 24 → 0 ≤ dm → dm < 60 →
      parseTimeHM rs.time = .ok (sh, sm) →
      0 ≤ sh → sh < 24 → 0 ≤ sm → sm < 60 →
      get_last_five_min_demand_gql a t w rows =
        .ok (⟨a, (sh, sm), t, rs.time, truncTowardZero (rs.demand.getD 0),
              truncTowardZero (rs.solar.getD 0),
              if w then truncTowardZero (rs.wind.getD 0) else 0⟩,
          [⟨a, (sh, sm), t, rs.time, truncTowardZero (rs.demand.getD 0),
              truncTowardZero (rs.solar.getD 0),
              if w then truncTowardZero (rs.wind.getD 0) else 0⟩])) ∧
    (∀ (a t : String) (w : Bool) (rows : List FiveMinRow) (rd : FiveMinRow)
        (dh dm : ℤ),
      selectLatest (fun r => demandPos r.demand) rows = some rd →
      truncTowardZero (rd.solar.getD 0) ≠ 0 →
      parseTimeHM rd.time = .ok (dh, dm) →
      0 ≤ dh → dh < 24 → 0 ≤ dm → dm < 60 →
      get_last_five_min_demand_gql a t w rows =
        .ok (⟨a, (dh, dm), t, rd.time, truncTowardZero (rd.demand.getD 0),
              truncTowardZero (rd.solar.getD 0),
              if w then truncTowardZero (rd.wind.getD 0) else 0⟩, [])) := by
  constructor
  · intro a t w rows rd rs dh dm sh sm hd hsol hs hne hpd h1 h2 h3 h4 hps h5 h6 h7 h8
    simp only [get_last_five_min_demand_gql, hd, hpd, hsol, hs, hps, mkAbsDate,
      bind, Except.bind, pure, Except.pure]
    rw [if_pos ⟨h1, h2, h3, h4⟩]
    simp [hne, h5, h6, h7, h8]
  · intro a t w rows rd dh dm hd hsol hpd h1 h2 h3 h4
    simp only [get_last_five_min_demand_gql, hd, hpd, mkAbsDate,
      bind, Except.bind, pure, Except.pure]
    rw [if_pos ⟨h1, h2, h3, h4⟩]
    simp [hsol]

/-- Witness for C7 (amended): the two-row region of the counterexample
discharges the first branch, and the same region with the demand-latest
row's solar set to 50 discharges the second. -/
theorem C7_skew_single_record_witness :
    get_last_five_min_demand_gql "tokyo" "2024-06-01" false
        [⟨"1/1", "12:00", some 300, some 50, none⟩,
         ⟨"1/1", "12:05", some 400, some 0, none⟩] =
      .ok (⟨"tokyo", (12, 0), "2024-06-01", "12:00",
            truncTowardZero ((some (300 : ℚ)).getD 0),
            truncTowardZero ((some (50 : ℚ)).getD 0),
            if false then truncTowardZero ((none : Option ℚ).getD 0) else 0⟩,
        [⟨"tokyo", (12, 0), "2024-06-01", "12:00",
            truncTowardZero ((some (300 : ℚ)).getD 0),
            truncTowardZero ((some (50 : ℚ)).getD 0),
            if false then truncTowardZero ((none : Option ℚ).getD 0) else 0⟩]) ∧
    get_last_five_min_demand_gql "tokyo" "2024-06-01" false
        [⟨"1/1", "12:00", some 300, some 60, none⟩,
         ⟨"1/1", "12:05", some 400, some 50, none⟩] =
      .ok (⟨"tokyo", (12, 5), "2024-06-01", "12:05",
            truncTowardZero ((some (400 : ℚ)).getD 0),
            truncTowardZero ((some (50 : ℚ)).getD 0),
            if false then truncTowardZero ((none : Option ℚ).getD 0) else 0⟩, []) := by
  constructor
  · exact C7_skew_single_record.1 "tokyo" "2024-06-01" false
      [⟨"1/1", "12:00", some 300, some 50, none⟩,
       ⟨"1/1", "12:05", some 400, some 0, none⟩]
      ⟨"1/1", "12:05", some 400, some 0, none⟩
      ⟨"1/1", "12:00", some 300, some 50, none⟩
      12 5 12 0 rfl (by decide) rfl (by decide) rfl
      (by decide) (by decide) (by decide) (by decide) rfl
      (by decide) (by decide) (by decide) (by decide)
  · exact C7_skew_single_record.2 "tokyo" "2024-06-01" false
      [⟨"1/1", "12:00", some 300, some 60, none⟩,
       ⟨"1/1", "12:05", some 400, some 50, none⟩]
      ⟨"1/1", "12:05", some 400, some 50, none⟩
      12 5 rfl (by decide) rfl
      (by decide) (by decide) (by decide) (by decide)

/-- The item `CsvData.get_last_hour_demand_gql` assembles (`createdAt`
omitted as ambient wall-clock time). -/
structure HourItem where
  area : String
  absDate : ℤ × ℤ
  date : String
  hour : ℤ
  amount : ℤ
  supply : ℤ
  percentage : ℤ
  deriving Repr, DecidableEq

/-- `CsvData.get_last_hour_demand_gql`: select the demand-latest hourly row,
take `int(TIME.split(':')[0])` as the hour, synthesize the absolute
timestamp at minute 0, and coerce amount, supply and percentage with
`int()`. -/
def get_last_hour_demand_gql (area_id today : String) (rows : List HourRow) :
    Except PyError HourItem := do
  let latest ← match selectLatest (fun r => demandPos r.demand) rows with
    | some r => pure r
    | none => throw (.noValidReading : PyError)
  let hourVal ← match pyIntOfString ((pySplit ':' latest.time).headD "") with
    | some v => pure v
    | none => throw (.valueError : PyError)
  let abs_date ← mkAbsDate hourVal 0
  pure ⟨area_id, abs_date, today, hourVal,
    truncTowardZero (latest.demand.getD 0),
    truncTowardZero (latest.supply.getD 0),
    truncTowardZero (latest.percentage.getD 0)⟩

/-- The mapping `process_csv_content` returns on success: keys `peak`,
`peakPct`, `hourly`, `five`. -/
structure MutationArgument where
  peak : PeakItem
  peakPct : PeakItem
  hourly : HourItem
  five : FiveMinItem
  deriving Repr, DecidableEq

/-- `traceback.format_exc()`: the formatted traceback string the source
returns from its catch-all handler, one rendering per exception kind. -/
def format_exc : PyError → String
  | .valueError => "Traceback (most recent call last): ValueError"
  | .zeroDivision => "Traceback (most recent call last): ZeroDivisionError"
  | .indexError => "Traceback (most recent call last): IndexError"
  | .noValidReading =>
      "Traceback (most recent call last): IndexError: single positional indexer is out-of-bounds"

/-- `process_csv_content`: run the four sub-extractions in source order and
build the mutation mapping; the bare `except:` catches every exception and
returns `traceback.format_exc()` — a plain string — instead.  The pandas
parse of the two sliced regions is modelled by the already-typed `rows5` /
`rowsH` arguments (the hourly column schema chosen by
`include_five_min_reserve` is absorbed into the `HourRow` type). -/
def process_csv_content (area_id today : String)
    (include_wind include_reserve_pct : Bool) (lines : List String)
    (rows5 : List FiveMinRow) (rowsH : List HourRow) :
    Sum String MutationArgument :=
  match (do
    let peak ← get_peak_demand_gql area_id today include_reserve_pct lines .AMOUNT
    let peakPct ← get_peak_demand_gql area_id today include_reserve_pct lines .PERCENTAGE
    let hourly ← get_last_hour_demand_gql area_id today rowsH
    let five ← get_last_five_min_demand_gql area_id today include_wind rows5
    pure (MutationArgument.mk peak peakPct hourly five.1) :
      Except PyError MutationArgument) with
  | .ok m => .inr m
  | .error e => .inl (format_exc e)

/-- **C5 (counterexample).** The claim says a failing sub-extraction is
surfaced as a raised/returned typed error and never converted into an
ordinary result value such as a formatted string.  On an empty line list the
first sub-extraction fails (`lines[2]` raises `IndexError`), and
`process_csv_content` returns the formatted traceback string — an ordinary
string value — instead of propagating the error. -/
theorem C5_error_swallowed_counterexample :
    process_csv_content "a" "d" false false [] [] [] =
      .inl (format_exc .indexError) ∧
    format_exc .indexError = "Traceback (most recent call last): IndexError" := by
  exact ⟨rfl, rfl⟩

/-- **C5 (amended).** `process_csv_content` catches every failure of any of
its four sub-extractions and converts it into an ordinary string result —
the formatted traceback — rather than propagating a typed error; only when
all four sub-extractions succeed does it return the mutation mapping. -/
theorem C5_catch_all_returns_string (a t : String) (w rp : Bool)
    (lines : List String) (rows5 : List FiveMinRow) (rowsH : List HourRow) :
    (∀ e, get_peak_demand_gql a t rp lines .AMOUNT = .error e →
      process_csv_content a t w rp lines rows5 rowsH = .inl (format_exc e)) ∧
    (∀ p e, get_peak_demand_gql a t rp lines .AMOUNT = .ok p →
      get_peak_demand_gql a t rp lines .PERCENTAGE = .error e →
      process_csv_content a t w rp lines rows5 rowsH = .inl (format_exc e)) ∧
    (∀ p pp e, get_peak_demand_gql a t rp lines .AMOUNT = .ok p →
      get_peak_demand_gql a t rp lines .PERCENTAGE = .ok pp →
      get_last_hour_demand_gql a t rowsH = .error e →
      process_csv_content a t w rp lines rows5 rowsH = .inl (format_exc e)) ∧
    (∀ p pp hh e, get_peak_demand_gql a t rp lines .AMOUNT = .ok p →
      get_peak_demand_gql a t rp lines .PERCENTAGE = .ok pp →
      get_last_hour_demand_gql a t rowsH = .ok hh →
      get_last_five_min_demand_gql a t w rows5 = .error e →
      process_csv_content a t w rp lines rows5 rowsH = .inl (format_exc e)) ∧
    (∀ p pp hh f5, get_peak_demand_gql a t rp lines .AMOUNT = .ok p →
      get_peak_demand_gql a t rp lines .PERCENTAGE = .ok pp →
      get_last_hour_demand_gql a t rowsH = .ok hh →
      get_last_five_min_demand_gql a t w rows5 = .ok f5 →
      process_csv_content a t w rp lines rows5 rowsH = .inr ⟨p, pp, hh, f5.1⟩) := by
  refine ⟨?_, ?_, ?_, ?_, ?_⟩
  · intro e h1
    simp only [process_csv_content, h1, bind, Except.bind]
  · intro p e h1 h2
    simp only [process_csv_content, h1, h2, bind, Except.bind]
  · intro p pp e h1 h2 h3
    simp only [process_csv_content, h1, h2, h3, bind, Except.bind]
  · intro p pp hh e h1 h2 h3 h4
    simp only [process_csv_content, h1, h2, h3, h4, bind, Except.bind]
  · intro p pp hh f5 h1 h2 h3 h4
    simp only [process_csv_content, h1, h2, h3, h4, bind, Except.bind, pure, Except.pure]

/-- Witness for C5 (amended): concrete inputs exercising all five branches —
an empty line list (first peak fails), a six-line list (second peak block
missing), a full peak list with an empty hourly region, then with an empty
five-minute region, and finally a fully well-formed input. -/
theorem C5_catch_all_returns_string_witness :
    process_csv_content "a" "d" false false [] [] [] =
      .inl (format_exc .indexError) ∧
    process_csv_content "a" "d" false false
        ["L0", "L1", "4500,x,y,z,90", "L3", "L4", "4000,13"] [] [] =
      .inl (format_exc .indexError) ∧
    process_csv_content "a" "d" false false
        ["L0", "L1", "4500,x,y,z,90", "L3", "L4", "4000,13",
         "L6", "L7", "5500,x,y,z,95", "L9", "L10", "5000,16"] [] [] =
      .inl (format_exc .noValidReading) ∧
    process_csv_content "a" "d" false false
        ["L0", "L1", "4500,x,y,z,90", "L3", "L4", "4000,13",
         "L6", "L7", "5500,x,y,z,95", "L9", "L10", "5000,16"] []
        [⟨"1/1", "13:00", some 3000, none, some 90, none, some 4500⟩] =
      .inl (format_exc .noValidReading) ∧
    process_csv_content "a" "d" false false
        ["L0", "L1", "4500,x,y,z,90", "L3", "L4", "4000,13",
         "L6", "L7", "5500,x,y,z,95", "L9", "L10", "5000,16"]
        [⟨"1/1", "12:05", some 400, some 50, none⟩]
        [⟨"1/1", "13:00", some 3000, none, some 90, none, some 4500⟩] =
      .inr ⟨⟨"a", "d_AMOUNT", "d", "13", "AMOUNT", 90, 0, false, 4000, 4500⟩,
        ⟨"a", "d_PERCENTAGE", "d", "16", "PERCENTAGE", 95, 0, false, 5000, 5500⟩,
        ⟨"a", (13, 0), "d", 13, 3000, 4500, 90⟩,
        ⟨"a", (12, 5), "d", "12:05", 400, 50, 0⟩⟩ := by
  refine ⟨?_, ?_, ?_, ?_, ?_⟩
  · exact (C5_catch_all_returns_string "a" "d" false false [] [] []).1 .indexError rfl
  · exact (C5_catch_all_returns_string "a" "d" false false
      ["L0", "L1", "4500,x,y,z,90", "L3", "L4", "4000,13"] [] []).2.1
      ⟨"a", "d_AMOUNT", "d", "13", "AMOUNT", 90, 0, false, 4000, 4500⟩
      .indexError rfl rfl
  · exact (C5_catch_all_returns_string "a" "d" false false
      ["L0", "L1", "4500,x,y,z,90", "L3", "L4", "4000,13",
       "L6", "L7", "5500,x,y,z,95", "L9", "L10", "5000,16"] [] []).2.2.1
      ⟨"a", "d_AMOUNT", "d", "13", "AMOUNT", 90, 0, false, 4000, 4500⟩
      ⟨"a", "d_PERCENTAGE", "d", "16", "PERCENTAGE", 95, 0, false, 5000, 5500⟩
      .noValidReading rfl rfl rfl
  · exact (C5_catch_all_returns_string "a" "d" false false
      ["L0", "L1", "4500,x,y,z,90", "L3", "L4", "4000,13",
       "L6", "L7", "5500,x,y,z,95", "L9", "L10", "5000,16"] []
      [⟨"1/1", "13:00", some 3000, none, some 90, none, some 4500⟩]).2.2.2.1
      ⟨"a", "d_AMOUNT", "d", "13", "AMOUNT", 90, 0, false, 4000, 4500⟩
      ⟨"a", "d_PERCENTAGE", "d", "16", "PERCENTAGE", 95, 0, false, 5000, 5500⟩
      ⟨"a", (13, 0), "d", 13, 3000, 4500, 90⟩
      .noValidReading rfl rfl rfl rfl
  · exact (C5_catch_all_returns_string "a" "d" false false
      ["L0", "L1", "4500,x,y,z,90", "L3", "L4", "4000,13",
       "L6", "L7", "5500,x,y,z,95", "L9", "L10", "5000,16"]
      [⟨"1/1", "12:05", some 400, some 50, none⟩]
      [⟨"1/1", "13:00", some 3000, none, some 90, none, some 4500⟩]).2.2.2.2
      ⟨"a", "d_AMOUNT", "d", "13", "AMOUNT", 90, 0, false, 4000, 4500⟩
      ⟨"a", "d_PERCENTAGE", "d", "16", "PERCENTAGE", 95, 0, false, 5000, 5500⟩
      ⟨"a", (13, 0), "d", 13, 3000, 4500, 90⟩
      (⟨"a", (12, 5), "d", "12:05", 400, 50, 0⟩, [])
      rfl rfl rfl rfl
